import Mathlib

/-!
# Shallow embedding of the TikTok → BigQuery ETL pipeline

This file embeds the pipeline of `tiktok_extractor.py`:
`TikTokExtractor.get_report_data` (paginated report fetch),
`TikTokExtractor.get_ad_details` (batched detail lookup),
`TikTokExtractor.transform_to_bigquery_schema` (row mapper, with its
helper `_calculate_cpr`), `BigQueryLoader.load_data` (warehouse sink)
and `main` (the run orchestration), and proves or refutes the spec's
claims about them.

Python dictionaries are modelled as association lists, Python scalar
values as the inductive `PyVal` (floats as exact rationals), and code
that can raise as `Except String`-valued functions.  External I/O
(the HTTP API, the BigQuery job) is modelled by oracle parameters.
-/

namespace TikTokPipeline

/-- A Python scalar value as it occurs in the pipeline's payloads:
`None`, an `int`, a `float` (modelled as an exact rational) or a `str`. -/
inductive PyVal where
  | vNone : PyVal
  | vInt (n : ℤ) : PyVal
  | vFloat (q : ℚ) : PyVal
  | vStr (s : String) : PyVal
  deriving DecidableEq, Repr

/-- Python truthiness of a `PyVal` (as used by `if x`, `x if x else y`). -/
def pyTruthy : PyVal → Bool
  | .vNone => false
  | .vInt n => decide (n ≠ 0)
  | .vFloat q => decide (q ≠ 0)
  | .vStr s => decide (s ≠ "")

/-- Whether a `PyVal` is an `int`. -/
def PyVal.isInt : PyVal → Bool
  | .vInt _ => true
  | _ => false

/-- Python `int(q)` on a float: truncation toward zero. -/
def pyTrunc (q : ℚ) : ℤ := if 0 ≤ q then q.floor else -((-q).floor)

/-- Python `x * c` for a float constant `c`: numbers multiply, a string or
`None` raises `TypeError`. -/
def pyMulFloat : PyVal → ℚ → Except String ℚ
  | .vInt n, c => .ok ((n : ℚ) * c)
  | .vFloat q, c => .ok (q * c)
  | _, _ => .error "TypeError"

/-- Python `int(x)`: identity on ints, truncation on floats, parse on
strings (`ValueError` when unparsable), `TypeError` on `None`. -/
def pyToInt : PyVal → Except String ℤ
  | .vInt n => .ok n
  | .vFloat q => .ok (pyTrunc q)
  | .vStr s =>
    match s.toInt? with
    | some n => .ok n
    | none => .error "ValueError"
  | .vNone => .error "TypeError"

/-- Round-half-to-even to an integer (Python's rounding mode). -/
def roundHalfEven (q : ℚ) : ℤ :=
  if q - (q.floor : ℚ) < 1/2 then q.floor
  else if 1/2 < q - (q.floor : ℚ) then q.floor + 1
  else if q.floor % 2 = 0 then q.floor else q.floor + 1

/-- Python `round(x, 6)`: round half-to-even at the sixth decimal. -/
def pyRound6 (q : ℚ) : ℚ := (roundHalfEven (q * 1000000) : ℚ) / 1000000

/-- Python `d.get(k, dflt)` on a string-keyed dict of `PyVal`s. -/
def dictGetD (d : List (String × PyVal)) (k : String) (dflt : PyVal) : PyVal :=
  (d.lookup k).getD dflt

/-- An ad-detail record as returned by the detail API: a dict. -/
abbrev AdInfo := List (String × PyVal)

/-- Embeds `ad_info.get(k, "")` — the detail-field access used by the mapper. -/
def adInfoGetD (info : AdInfo) (k : String) : PyVal :=
  (info.lookup k).getD (.vStr "")

/-- One raw metric row from the report API:
`{"dimensions": {...}, "metrics": {...}}`. -/
structure MetricRow where
  dimensions : List (String × PyVal)
  metrics : List (String × PyVal)
  deriving DecidableEq, Repr

/-- Embeds `ad_details.get(ad_id, \x7b\x7d)`: the detail map is keyed by strings, so a
non-string (or absent) `ad_id` finds no entry and yields the empty dict. -/
def detailGet (details : List (String × AdInfo)) (k : PyVal) : AdInfo :=
  match k with
  | .vStr s => (details.lookup s).getD []
  | _ => []

/-- The pass-through conditional `v if v else None` used for the 25%- and
50%-quartile columns (`transform_to_bigquery_schema`, lines 215-216). -/
def keepIfTruthy (v : PyVal) : PyVal := if pyTruthy v then v else .vNone

/-- Embeds `int(video_views * 0.75) if video_views else None`
(`transform_to_bigquery_schema`, line 217).  `0.75` is exactly `3/4` as a
binary float, so the rational model is exact. -/
def videoQuartile75 (video_views : PyVal) : Except String PyVal :=
  if pyTruthy video_views then
    match pyMulFloat video_views (75/100) with
    | .ok q => .ok (.vInt (pyTrunc q))
    | .error e => .error e
  else .ok .vNone

/-- Embeds `int(video_views) if video_views else None`
(`transform_to_bigquery_schema`, line 218). -/
def videoQuartile100 (video_views : PyVal) : Except String PyVal :=
  if pyTruthy video_views then
    match pyToInt video_views with
    | .ok n => .ok (.vInt n)
    | .error e => .error e
  else .ok .vNone

/-- Python `x > 0`: numeric comparison; a string or `None` operand raises
`TypeError`. -/
def pyGtZero : PyVal → Except String Bool
  | .vInt n => .ok (decide (0 < n))
  | .vFloat q => .ok (decide (0 < q))
  | _ => .error "TypeError"

/-- Python `a / b` on payload values: numeric division giving a float;
a string or `None` operand raises `TypeError`, a zero divisor raises
`ZeroDivisionError`. -/
def pyDiv : PyVal → PyVal → Except String ℚ
  | .vInt a, .vInt b =>
    if b = 0 then .error "ZeroDivisionError" else .ok ((a : ℚ) / (b : ℚ))
  | .vInt a, .vFloat b =>
    if b = 0 then .error "ZeroDivisionError" else .ok ((a : ℚ) / b)
  | .vFloat a, .vInt b =>
    if b = 0 then .error "ZeroDivisionError" else .ok (a / (b : ℚ))
  | .vFloat a, .vFloat b =>
    if b = 0 then .error "ZeroDivisionError" else .ok (a / b)
  | _, _ => .error "TypeError"

/-- Embeds `TikTokExtractor._calculate_cpr` as invoked by the mapper on raw payload
values: `if reach and reach > 0: return round(spend / reach, 6)`, else
`None` (lines 271-275). -/
def pyCalculateCpr (spend reach : PyVal) : Except String PyVal :=
  if pyTruthy reach then
    match pyGtZero reach with
    | .error e => .error e
    | .ok b =>
      if b then
        match pyDiv spend reach with
        | .error e => .error e
        | .ok q => .ok (.vFloat (pyRound6 q))
      else .ok .vNone
  else .ok .vNone

/-- Embeds `TikTokExtractor._calculate_cpr` at its declared numeric signature
`(spend: float, reach: float) -> Optional[float]`: the short-circuit
`reach and reach > 0` is float truthiness (`reach ≠ 0`) followed by the
sign test. -/
def calculate_cpr (spend reach : ℚ) : Option ℚ :=
  if reach ≠ 0 ∧ 0 < reach then some (pyRound6 (spend / reach)) else none

/-- The fixed 26-column output record produced by the mapper
(`transform_to_bigquery_schema`, lines 221-264). -/
structure OutputRow where
  DATE : PyVal
  VIDEO_AVERAGE_PLAY_TIME : PyVal
  VIDEO_VIEWS : PyVal
  VIDEO_VIEWS_AT_25 : PyVal
  VIDEO_VIEWS_AT_50 : PyVal
  VIDEO_VIEWS_AT_75 : PyVal
  VIDEO_VIEWS_AT_100 : PyVal
  FORMAT : PyVal
  TEXT : PyVal
  CREATIVE : PyVal
  CALL_TO_ACTION : PyVal
  FREQUENCY : PyVal
  AMOUNT_SPENT_USD : PyVal
  REACH : PyVal
  CTR_DESTINATION : PyVal
  CURRENCY : PyVal
  IMPRESSIONS : PyVal
  CPM : PyVal
  CPC_DESTINATION : PyVal
  LINK_CLICKS : PyVal
  CPR : PyVal
  CAMPAIGN_NAME : PyVal
  AD_GROUP_NAME : PyVal
  AD_NAME : PyVal
  PLATFORM : PyVal
  LANGUAGE : PyVal
  deriving DecidableEq, Repr

/-- The body of the `for row in raw_data` loop of
`TikTokExtractor.transform_to_bigquery_schema` (lines 204-266): builds one
output record from one metric row and the detail map.  The three fallible
subexpressions (`int(video_views * 0.75)`, `int(video_views)` and the CPR
call) are sequenced in the evaluation order of the source. -/
def transformRow (ad_details : List (String × AdInfo)) (row : MetricRow) :
    Except String OutputRow :=
  let ad_id := dictGetD row.dimensions "ad_id" .vNone
  let ad_info := detailGet ad_details ad_id
  let video_views := dictGetD row.metrics "video_play_actions" (.vInt 0)
  let video_2s := dictGetD row.metrics "video_watched_2s" (.vInt 0)
  let video_6s := dictGetD row.metrics "video_watched_6s" (.vInt 0)
  match videoQuartile75 video_views with
  | .error e => .error e
  | .ok video_75 =>
    match videoQuartile100 video_views with
    | .error e => .error e
    | .ok video_100 =>
      match pyCalculateCpr (dictGetD row.metrics "spend" (.vInt 0))
          (dictGetD row.metrics "reach" (.vInt 0)) with
      | .error e => .error e
      | .ok cpr =>
        .ok
          { DATE := dictGetD row.dimensions "stat_time_day" .vNone
            VIDEO_AVERAGE_PLAY_TIME :=
              dictGetD row.metrics "average_video_play" (.vInt 0)
            VIDEO_VIEWS := video_views
            VIDEO_VIEWS_AT_25 := keepIfTruthy video_2s
            VIDEO_VIEWS_AT_50 := keepIfTruthy video_6s
            VIDEO_VIEWS_AT_75 := video_75
            VIDEO_VIEWS_AT_100 := video_100
            FORMAT := adInfoGetD ad_info "creative_material_mode"
            TEXT := adInfoGetD ad_info "ad_text"
            CREATIVE := ad_id
            CALL_TO_ACTION := adInfoGetD ad_info "call_to_action"
            FREQUENCY := dictGetD row.metrics "frequency" (.vInt 0)
            AMOUNT_SPENT_USD := dictGetD row.metrics "spend" (.vInt 0)
            REACH := dictGetD row.metrics "reach" (.vInt 0)
            CTR_DESTINATION := dictGetD row.metrics "ctr" (.vInt 0)
            CURRENCY := .vStr "USD"
            IMPRESSIONS := dictGetD row.metrics "impressions" (.vInt 0)
            CPM := dictGetD row.metrics "cpm" (.vInt 0)
            CPC_DESTINATION := dictGetD row.metrics "cpc" (.vInt 0)
            LINK_CLICKS := dictGetD row.metrics "clicks" (.vInt 0)
            CPR := cpr
            CAMPAIGN_NAME := adInfoGetD ad_info "campaign_name"
            AD_GROUP_NAME := adInfoGetD ad_info "adgroup_name"
            AD_NAME := adInfoGetD ad_info "ad_name"
            PLATFORM := .vStr "TikTok"
            LANGUAGE := .vStr "en" }

/-- Embeds `TikTokExtractor.transform_to_bigquery_schema` over the whole row list:
an exception raised while mapping any row propagates out of the loop. -/
def transform_to_bigquery_schema (ad_details : List (String × AdInfo)) :
    List MetricRow → Except String (List OutputRow)
  | [] => .ok []
  | r :: rs =>
    match transformRow ad_details r with
    | .error e => .error e
    | .ok o =>
      match transform_to_bigquery_schema ad_details rs with
      | .error e => .error e
      | .ok os => .ok (o :: os)

/-- A call issued by `BigQueryLoader` against the warehouse.  The `delete`
constructor exists so that "no delete is ever issued" is expressible; only
`load_data` can produce actions and it only produces `append`. -/
inductive SinkAction (α : Type) where
  | append (rows : List α) : SinkAction α
  | delete (dates : List PyVal) : SinkAction α
  deriving DecidableEq, Repr

/-- Embeds `BigQueryLoader.load_data` (lines 293-323): an empty dataset returns
without contacting the warehouse; otherwise a single append job
(`WRITE_APPEND`) is submitted, whose success is an environment fact
(`jobOk`): on success the table gains the rows, on failure the exception
is logged and re-raised.  The warehouse table is the row list; the second
component records the calls issued against the warehouse. -/
def load_data {α : Type} (jobOk : Bool) (data : List α) (warehouse : List α) :
    Except String (List α) × List (SinkAction α) :=
  if data.isEmpty then (.ok warehouse, [])
  else if jobOk then (.ok (warehouse ++ data), [.append data])
  else (.error "Failed to load data to BigQuery", [.append data])

/-- Two consecutive successful-job invocations of `load_data` on the same
dataset, with the action traces concatenated. -/
def loadTwice {α : Type} (data warehouse : List α) :
    Except String (List α) × List (SinkAction α) :=
  match load_data true data warehouse with
  | (.ok w1, a1) =>
    match load_data true data w1 with
    | (r2, a2) => (r2, a1 ++ a2)
  | (.error e, a1) => (.error e, a1)

/-- The batching `for i in range(0, len(ad_ids), batch_size)` with
`batch_size = 100` and slices `ad_ids[i:i + 100]`
(`get_ad_details`, lines 147-151). -/
def chunk100 : List String → List (List String)
  | [] => []
  | x :: xs => ((x :: xs).take 100) :: chunk100 ((x :: xs).drop 100)
termination_by l => l.length
decreasing_by simp [List.length_drop]; omega

/-- Embeds `ad_details[k] = v`: Python dict assignment on an association list
(overwrite in place, or append a new key). -/
def dictInsert (d : List (String × AdInfo)) (k : String) (v : AdInfo) :
    List (String × AdInfo) :=
  if (d.lookup k).isSome then
    d.map (fun p => if p.1 = k then (k, v) else p)
  else d ++ [(k, v)]

/-- The `for ad in ads: ad_details[ad["ad_id"]] = ad` insertion loop of one
successful batch.  The batch API oracle returns records already paired with
their `ad_id` key. -/
def insertBatch (acc : List (String × AdInfo)) (ads : List (String × AdInfo)) :
    List (String × AdInfo) :=
  ads.foldl (fun a p => dictInsert a p.1 p.2) acc

/-- The per-batch loop of `TikTokExtractor.get_ad_details` (lines 150-186):
a raised request/parse exception is caught, logged and the batch skipped
(`continue`); a response with `code != 0` contributes nothing; a `code == 0`
response has its records inserted into the accumulating dict. -/
def adDetailsLoop
    (api : List String → Except String (ℤ × List (String × AdInfo))) :
    List (List String) → List (String × AdInfo) → List (String × AdInfo)
  | [], acc => acc
  | b :: bs, acc =>
    match api b with
    | .error _ => adDetailsLoop api bs acc
    | .ok (code, ads) =>
      if code = 0 then adDetailsLoop api bs (insertBatch acc ads)
      else adDetailsLoop api bs acc

/-- Embeds `TikTokExtractor.get_ad_details` (lines 128-188): partition the ids
into batches of at most 100 and run the per-batch loop on an empty dict.
The `api` oracle models one HTTP round-trip for one batch: `.error` is a
raised exception, `.ok (code, ads)` a parsed JSON response. -/
def get_ad_details
    (api : List String → Except String (ℤ × List (String × AdInfo)))
    (ad_ids : List String) : List (String × AdInfo) :=
  adDetailsLoop api (chunk100 ad_ids) []

/-- The detail records contributed by the successful (`code == 0`) batches,
in batch order. -/
def successfulBatches
    (api : List String → Except String (ℤ × List (String × AdInfo)))
    (bs : List (List String)) : List (List (String × AdInfo)) :=
  bs.filterMap (fun b =>
    match api b with
    | .error _ => none
    | .ok (code, ads) => if code = 0 then some ads else none)

/-- One HTTP round-trip of the report endpoint, as seen by
`get_report_data`: `httpFail` is a `requests` exception (timeout,
non-2xx via `raise_for_status`), `resp` a parsed JSON body with its
embedded `code`, `message`, `data.list` and `data.page_info.total_page`. -/
inductive ApiPage where
  | httpFail (msg : String) : ApiPage
  | resp (code : ℤ) (message : String) (list : List MetricRow)
      (total_page : ℕ) : ApiPage

/-- Result of a report fetch: the `(start_date, end_date, page)` triple of
every POST issued, and the outcome (returned rows, or the exception the
function re-raises). -/
structure FetchResult where
  requests : List (String × String × ℕ)
  outcome : Except String (List MetricRow)
  deriving Repr

/-- The `while True` pagination loop of `TikTokExtractor.get_report_data`
(lines 85-126): each iteration POSTs the payload — whose `start_date` and
`end_date` are the arguments, unchanged — at the current page; an HTTP
exception or a payload `code != 0` raises out of the loop (the `except`
clauses log and re-raise); an empty `data.list` or `page >= total_page`
ends the loop returning the accumulated rows; otherwise the page counter
advances.  `fuel` bounds the iterations so the model is total; every run
whose oracle reports a finite `total_page` is reached with enough fuel. -/
def fetchPages (api : String → String → ℕ → ApiPage) (sd ed : String) :
    ℕ → ℕ → List MetricRow → List (String × String × ℕ) → FetchResult
  | 0, _, _, reqs => ⟨reqs, .error "fuel exhausted"⟩
  | fuel + 1, page, acc, reqs =>
    let reqs := reqs ++ [(sd, ed, page)]
    match api sd ed page with
    | .httpFail m => ⟨reqs, .error m⟩
    | .resp code msg list total_page =>
      if code ≠ 0 then
        ⟨reqs, .error ("TikTok API returned error: " ++ msg)⟩
      else if list.isEmpty then ⟨reqs, .ok acc⟩
      else if total_page ≤ page then ⟨reqs, .ok (acc ++ list)⟩
      else fetchPages api sd ed fuel (page + 1) (acc ++ list) reqs

/-- Embeds `TikTokExtractor.get_report_data` (lines 37-126): one paginated fetch
of the full `[start_date, end_date]` range, starting at page 1. -/
def get_report_data (api : String → String → ℕ → ApiPage)
    (start_date end_date : String) (fuel : ℕ) : FetchResult :=
  fetchPages api start_date end_date fuel 1 [] []

/-- Day-of-year in the (non-leap) year 2025, for stating calendar spans of
concrete date strings used in counterexamples. -/
def dayOfYear2025 (month day : ℕ) : ℕ :=
  (([31, 28, 31, 30, 31, 30, 31, 31, 30, 31, 30, 31].take (month - 1)).sum)
    + day

/-- The I/O environment of one pipeline run: the two API oracles and
whether the BigQuery load job succeeds. -/
structure PipelineEnv where
  reportApi : String → String → ℕ → ApiPage
  detailApi : List String → Except String (ℤ × List (String × AdInfo))
  loadOk : Bool

/-- Persistent state visible across runs.  `warehouse` is the target
table's content.  `watermark` models the durable "last successfully loaded
date" store the spec names as an external collaborator (spec §4.6/§6);
it is part of the state so that statements about it are expressible —
`main` contains no code that reads or writes any such value. -/
structure RunState where
  warehouse : List OutputRow
  watermark : Option String
  deriving DecidableEq, Repr

/-- The `ad_ids` comprehension of `main` (line 371):
`[row...get("ad_id") for row in raw_data if row...get("ad_id")]`, keeping
the truthy (non-empty string) identifiers.  Non-string identifiers are
dropped here: the detail-lookup model is keyed by strings, and no claim
depends on non-string ids reaching it. -/
def extractAdIds (raw : List MetricRow) : List String :=
  raw.filterMap (fun r =>
    match dictGetD r.dimensions "ad_id" .vNone with
    | .vStr s => if s = "" then none else some s
    | _ => none)

/-- Embeds `main` (lines 326-385): fetch the report for the externally supplied
date range (the source computes `START/END` from the wall clock:
yesterday back 30 days), look up details, transform, load with
`WRITE_APPEND`, any exception failing the whole run.  Returns the state
after the run and its outcome. -/
def main (env : PipelineEnv) (fuel : ℕ) (START_DATE END_DATE : String)
    (st : RunState) : RunState × Except String Unit :=
  match (get_report_data env.reportApi START_DATE END_DATE fuel).outcome with
  | .error e => (st, .error e)
  | .ok raw =>
    match transform_to_bigquery_schema
        (get_ad_details env.detailApi (extractAdIds raw)) raw with
    | .error e => (st, .error e)
    | .ok rows =>
      match load_data env.loadOk rows st.warehouse with
      | (.ok w1, _) => (⟨w1, st.watermark⟩, .ok ())
      | (.error e, _) => (st, .error e)

/-! ## Concrete sample data used in counterexamples and witnesses -/

/-- A concrete output row for one ad on one day, as the sink receives it. -/
def sampleRow : OutputRow where
  DATE := .vStr "2025-03-03"
  VIDEO_AVERAGE_PLAY_TIME := .vInt 0
  VIDEO_VIEWS := .vInt 10
  VIDEO_VIEWS_AT_25 := .vNone
  VIDEO_VIEWS_AT_50 := .vNone
  VIDEO_VIEWS_AT_75 := .vNone
  VIDEO_VIEWS_AT_100 := .vNone
  FORMAT := .vStr ""
  TEXT := .vStr ""
  CREATIVE := .vStr "ad1"
  CALL_TO_ACTION := .vStr ""
  FREQUENCY := .vInt 0
  AMOUNT_SPENT_USD := .vInt 0
  REACH := .vInt 0
  CTR_DESTINATION := .vInt 0
  CURRENCY := .vStr "USD"
  IMPRESSIONS := .vInt 0
  CPM := .vInt 0
  CPC_DESTINATION := .vInt 0
  LINK_CLICKS := .vInt 0
  CPR := .vNone
  CAMPAIGN_NAME := .vStr ""
  AD_GROUP_NAME := .vStr ""
  AD_NAME := .vStr ""
  PLATFORM := .vStr "TikTok"
  LANGUAGE := .vStr "en"

/-- A metric row with the given integer video metrics, keyed like the
report API payload. -/
def videoMetricsRow (vv v2s v6s : ℤ) : MetricRow where
  dimensions := [("ad_id", .vStr "ad1"), ("stat_time_day", .vStr "2025-03-03")]
  metrics := [("video_play_actions", .vInt vv), ("video_watched_2s", .vInt v2s),
    ("video_watched_6s", .vInt v6s)]

/-- A metric row whose `video_play_actions` is a string payload. -/
def stringVideoRow (s : String) : MetricRow where
  dimensions := [("ad_id", .vStr "ad1")]
  metrics := [("video_play_actions", .vStr s)]

/-- A metric row whose `impressions` is a non-numeric payload value. -/
def stringImpressionsRow : MetricRow where
  dimensions := [("ad_id", .vStr "ad1")]
  metrics := [("impressions", .vStr "xyz")]

/-- Report oracle whose first page is already empty. -/
def emptyFirstPageApi : String → String → ℕ → ApiPage :=
  fun _ _ _ => .resp 0 "" [] 1

/-- Report oracle with data on page 1 of 2 and a provider error
(`code = 40002`) on page 2. -/
def twoPageThenErrorApi : String → String → ℕ → ApiPage :=
  fun _ _ p =>
    if p = 1 then .resp 0 "" [videoMetricsRow 0 0 0] 2
    else .resp 40002 "boom" [] 2

/-- Report oracle returning exactly one row on a single page. -/
def oneRowApi : String → String → ℕ → ApiPage :=
  fun _ _ _ => .resp 0 "" [videoMetricsRow 0 0 0] 1

/-- An environment in which the report fetch and the load job succeed and
the detail API is down (its failures are swallowed per batch). -/
def successEnv : PipelineEnv where
  reportApi := oneRowApi
  detailApi := fun _ => .error "detail api down"
  loadOk := true

/-! ## Helper lemmas -/

/-- Lemma: `Rat.floor` is the mathematical floor. -/
theorem ratFloorEqIntFloor (q : ℚ) : q.floor = ⌊q⌋ := by
  rw [Rat.floor_def', Rat.floor_def]

/-- In an all-integer metrics dict, every defaulted metric access yields an
integer value. -/
theorem dictGetD_int (metrics : List (String × PyVal)) (k : String)
    (hm : metrics.all (fun p => p.2.isInt) = true) :
    ∃ n : ℤ, dictGetD metrics k (.vInt 0) = .vInt n := by
  induction metrics with
  | nil => exact ⟨0, rfl⟩
  | cons p rest ih =>
    simp only [List.all_cons, Bool.and_eq_true] at hm
    by_cases hk : p.1 = k
    · obtain ⟨n, hn⟩ : ∃ n : ℤ, p.2 = .vInt n := by
        cases h : p.2 <;> simp [PyVal.isInt, h] at hm ⊢
      subst hk
      exact ⟨n, by simp [dictGetD, List.lookup, hn]⟩
    · obtain ⟨n, hn⟩ := ih hm.2
      have hkk : (k == p.1) = false := by
        simp only [beq_eq_false_iff_ne, ne_eq]
        exact fun h => hk h.symm
      refine ⟨n, ?_⟩
      simpa [dictGetD, List.lookup, hkk] using hn

/-- Lemma: `int(v * 0.75) if v else None` never raises on an integer value. -/
theorem videoQuartile75_int (n : ℤ) :
    videoQuartile75 (.vInt n) =
      .ok (if n = 0 then .vNone else .vInt (pyTrunc ((n : ℚ) * (75/100)))) := by
  by_cases h : n = 0 <;> simp [videoQuartile75, pyTruthy, pyMulFloat, h]

/-- Lemma: `int(v) if v else None` never raises on an integer value. -/
theorem videoQuartile100_int (n : ℤ) :
    videoQuartile100 (.vInt n) =
      .ok (if n = 0 then .vNone else .vInt n) := by
  by_cases h : n = 0 <;> simp [videoQuartile100, pyTruthy, pyToInt, h]

/-- Lemma: `_calculate_cpr` never raises on integer payload values. -/
theorem pyCalculateCpr_int (a b : ℤ) :
    ∃ v, pyCalculateCpr (.vInt a) (.vInt b) = .ok v := by
  by_cases hb : b = 0
  · exact ⟨.vNone, by simp [pyCalculateCpr, pyTruthy, hb]⟩
  · by_cases hpos : 0 < b
    · refine ⟨.vFloat (pyRound6 ((a : ℚ) / (b : ℚ))), ?_⟩
      simp [pyCalculateCpr, pyTruthy, pyGtZero, pyDiv, hb, hpos]
    · exact ⟨.vNone, by simp [pyCalculateCpr, pyTruthy, pyGtZero, pyDiv, hb, hpos]⟩

/-- Every request the pagination loop appends carries the window
`(sd, ed)` it was called with. -/
theorem fetchPagesRequestsWindow (api : String → String → ℕ → ApiPage)
    (sd ed : String) (fuel : ℕ) :
    ∀ (page : ℕ) (acc : List MetricRow) (reqs : List (String × String × ℕ)),
      reqs.all (fun r => r.1 == sd && r.2.1 == ed) = true →
      ((fetchPages api sd ed fuel page acc reqs).requests).all
        (fun r => r.1 == sd && r.2.1 == ed) = true := by
  induction fuel with
  | zero => intro page acc reqs h; simpa [fetchPages] using h
  | succ n ih =>
    intro page acc reqs h
    have h' : (reqs ++ [(sd, ed, page)]).all
        (fun r => r.1 == sd && r.2.1 == ed) = true := by
      simp [List.all_append, h]
    simp only [fetchPages]
    cases api sd ed page with
    | httpFail m => simpa using h'
    | resp code msg list total_page =>
      by_cases hc : code ≠ 0
      · simpa [hc] using h'
      · by_cases hl : list.isEmpty
        · simpa [hc, hl] using h'
        · by_cases ht : total_page ≤ page
          · simpa [hc, hl, ht] using h'
          · simpa [hc, hl, ht] using ih (page + 1) (acc ++ list) _ h'

/-- Every batch produced by the 100-slicing has at most 100 elements. -/
theorem chunk100_all_le :
    ∀ l : List String,
      (chunk100 l).all (fun b => decide (b.length ≤ 100)) = true
  | [] => by rw [chunk100]; rfl
  | x :: xs => by
    rw [chunk100]
    simp only [List.all_cons, Bool.and_eq_true]
    refine ⟨?_, chunk100_all_le ((x :: xs).drop 100)⟩
    simp [List.length_take]
termination_by l => l.length
decreasing_by simp [List.length_drop]; omega

/-- Concatenating the batches recovers the original id list: the batching
partitions the ids with no loss, duplication or reordering. -/
theorem chunk100_flatten : ∀ l : List String, (chunk100 l).flatten = l
  | [] => by rw [chunk100]; rfl
  | x :: xs => by
    rw [chunk100]
    simp only [List.flatten_cons, chunk100_flatten ((x :: xs).drop 100)]
    exact List.take_append_drop 100 (x :: xs)
termination_by l => l.length
decreasing_by simp [List.length_drop]; omega

/-- The detail-lookup loop computes the fold of the successful batches
only: error batches and non-zero-code batches contribute nothing. -/
theorem adDetailsLoop_eq
    (api : List String → Except String (ℤ × List (String × AdInfo))) :
    ∀ (bs : List (List String)) (acc : List (String × AdInfo)),
      adDetailsLoop api bs acc =
        (successfulBatches api bs).foldl insertBatch acc := by
  intro bs
  induction bs with
  | nil => intro acc; rfl
  | cons b rest ih =>
    intro acc
    simp only [adDetailsLoop, successfulBatches, List.filterMap_cons]
    cases hb : api b with
    | error e => simpa [successfulBatches] using ih acc
    | ok p =>
      obtain ⟨code, ads⟩ := p
      by_cases hc : code = 0
      · simpa [hc, successfulBatches] using ih (insertBatch acc ads)
      · simpa [hc, successfulBatches] using ih acc

/-! ## Claims -/

/-- Claim C1, counterexample: loading the one-row dataset for date
`2025-03-03` twice in succession into an empty warehouse leaves 2 rows for
that (ad, day) — the claim demands exactly 1 — and the call trace contains
two appends and no delete at all. -/
theorem doubleLoadLeavesTwoRows :
    loadTwice [sampleRow] ([] : List OutputRow) =
      (.ok [sampleRow, sampleRow], [.append [sampleRow], .append [sampleRow]])
    ∧ [sampleRow, sampleRow].countP
        (fun r => r.DATE == .vStr "2025-03-03" && r.CREATIVE == .vStr "ad1")
        = 2
    ∧ (2 : ℕ) ≠ 1 := by
  refine ⟨rfl, by decide, by decide⟩

/-- Claim C1, amended: `load_data` computes no distinct-DATE set and issues
no delete; it appends unconditionally (`WRITE_APPEND`), so two consecutive
successful loads of the same nonempty dataset leave two copies of it in
the warehouse — two rows per (ad, day) occurring once in the dataset, not
one — and the call trace is two appends with no delete. -/
theorem loadDataNoDeleteAppendsTwice {α : Type} (d w : List α) (h : d ≠ []) :
    loadTwice d w = (.ok ((w ++ d) ++ d), [.append d, .append d]) := by
  have hne : d.isEmpty = false := by
    cases d with
    | nil => exact absurd rfl h
    | cons a l => rfl
  simp [loadTwice, load_data, hne]

/-- Witness for C1's amended theorem at a concrete nonempty dataset. -/
theorem loadDataNoDeleteAppendsTwiceWitness :
    loadTwice [(1 : ℕ)] [] = (.ok [1, 1], [.append [1], .append [1]]) :=
  loadDataNoDeleteAppendsTwice [(1 : ℕ)] [] (by decide)

/-- Claim C2, counterexample: for the pair 2025-01-01 / 2025-03-01 —
59 days apart, more than 30 — the fetch issues exactly one request window,
the full range, instead of splitting it into windows of at most 30 days. -/
theorem fetchSingleWindowExceedsThirtyDays :
    (get_report_data emptyFirstPageApi "2025-01-01" "2025-03-01" 5).requests
      = [("2025-01-01", "2025-03-01", 1)]
    ∧ dayOfYear2025 3 1 - dayOfYear2025 1 1 = 59
    ∧ 30 < dayOfYear2025 3 1 - dayOfYear2025 1 1 := by
  refine ⟨rfl, by decide, by decide⟩

/-- Claim C2, amended: `get_report_data` performs no window chunking: every
page request it issues carries the single window
`(start_date, end_date)` — the full input range — whatever its length. -/
theorem fetchAllRequestsUseFullRange (api : String → String → ℕ → ApiPage)
    (sd ed : String) (fuel : ℕ) :
    ((get_report_data api sd ed fuel).requests).all
      (fun r => r.1 == sd && r.2.1 == ed) = true :=
  fetchPagesRequestsWindow api sd ed fuel 1 [] [] rfl

/-- Claim C3, counterexample: with data on page 1 (of 2) and a provider
error (`code = 40002`) on page 2, the whole fetch raises — discarding the
already-accumulated page-1 rows — instead of returning the accumulated
rows, and the page-1 response did contain a row. -/
theorem fetchErrorDiscardsAccumulatedRows :
    (get_report_data twoPageThenErrorApi "2025-01-01" "2025-01-02" 5).outcome
      = .error "TikTok API returned error: boom"
    ∧ twoPageThenErrorApi "2025-01-01" "2025-01-02" 1
      = .resp 0 "" [videoMetricsRow 0 0 0] 2
    ∧ ∀ rows : List MetricRow,
        (Except.error "TikTok API returned error: boom"
          : Except String (List MetricRow)) ≠ .ok rows := by
  refine ⟨rfl, rfl, fun rows h => by cases h⟩

/-- Claim C3, amended: there is no window-scoped recovery: a provider
error response (`code != 0`) or a network-level failure at any page
aborts the entire fetch with an exception, discarding every row
accumulated so far; nothing is skipped and no partial result is
returned. -/
theorem fetchProviderErrorAbortsWholeFetch
    (api : String → String → ℕ → ApiPage) (sd ed : String)
    (fuel page : ℕ) (acc : List MetricRow)
    (reqs : List (String × String × ℕ)) :
    (∀ (c : ℤ) (m : String) (l : List MetricRow) (t : ℕ),
      api sd ed page = .resp c m l t → c ≠ 0 →
      (fetchPages api sd ed (fuel + 1) page acc reqs).outcome =
        .error ("TikTok API returned error: " ++ m))
    ∧ (∀ m : String, api sd ed page = .httpFail m →
      (fetchPages api sd ed (fuel + 1) page acc reqs).outcome = .error m) := by
  constructor
  · intro c m l t hapi hc
    simp [fetchPages, hapi, hc]
  · intro m hapi
    simp [fetchPages, hapi]

/-- Witness for C3's amended theorem: the provider-error branch applied to
the concrete two-page oracle at page 2. -/
theorem fetchProviderErrorAbortsWholeFetchWitness :
    (fetchPages twoPageThenErrorApi "2025-01-01" "2025-01-02" 5 2
        [videoMetricsRow 0 0 0] [("2025-01-01", "2025-01-02", 1)]).outcome =
      .error "TikTok API returned error: boom" :=
  (fetchProviderErrorAbortsWholeFetch twoPageThenErrorApi
      "2025-01-01" "2025-01-02" 4 2 [videoMetricsRow 0 0 0]
      [("2025-01-01", "2025-01-02", 1)]).1
    40002 "boom" [] 2 rfl (by decide)

/-- Claim C4, counterexample: at `video_play_actions = -1` the mapper
emits `int(-1 * 0.75) = 0` (truncation toward zero) where the claim's
formula `floor(video_views * 0.75)` gives `-1`. -/
theorem quartile75TruncatesNotFloors :
    (transformRow [] (videoMetricsRow (-1) 0 0)).map
        (fun r => r.VIDEO_VIEWS_AT_75) = .ok (.vInt 0)
    ∧ ⌊((-1 : ℚ) * (75/100))⌋ = -1
    ∧ PyVal.vInt 0 ≠ PyVal.vInt (-1) := by
  refine ⟨by with_unfolding_all rfl, ?_, by decide⟩
  rw [← ratFloorEqIntFloor]
  with_unfolding_all rfl

/-- Claim C4, amended: for every metric row with integer video metrics the
mapper derives `VIDEO_VIEWS_AT_25 = video_watched_2s if nonzero else
null`, `VIDEO_VIEWS_AT_50 = video_watched_6s if nonzero else null`,
`VIDEO_VIEWS_AT_75 = int(video_views * 0.75)` — truncation toward zero,
which equals `floor(video_views * 0.75)` whenever `video_views ≥ 0` — `if
video_views nonzero else null`, and `VIDEO_VIEWS_AT_100 = video_views if
nonzero else null`; the concrete input 1000/900/700 yields
900, 700, 750, 1000. -/
theorem quartileDerivationTruncation :
    (∀ vv v2s v6s : ℤ,
      (transformRow [] (videoMetricsRow vv v2s v6s)).map
          (fun r => (r.VIDEO_VIEWS_AT_25, r.VIDEO_VIEWS_AT_50,
            r.VIDEO_VIEWS_AT_75, r.VIDEO_VIEWS_AT_100)) =
        .ok (if v2s = 0 then .vNone else .vInt v2s,
          if v6s = 0 then .vNone else .vInt v6s,
          if vv = 0 then .vNone else .vInt (pyTrunc ((vv : ℚ) * (75/100))),
          if vv = 0 then .vNone else .vInt vv))
    ∧ (∀ vv : ℤ, 0 ≤ vv →
        pyTrunc ((vv : ℚ) * (75/100)) = ⌊((vv : ℚ) * (75/100))⌋)
    ∧ (transformRow [] (videoMetricsRow 1000 900 700)).map
          (fun r => (r.VIDEO_VIEWS_AT_25, r.VIDEO_VIEWS_AT_50,
            r.VIDEO_VIEWS_AT_75, r.VIDEO_VIEWS_AT_100)) =
        .ok (.vInt 900, .vInt 700, .vInt 750, .vInt 1000) := by
  refine ⟨?_, ?_, by with_unfolding_all rfl⟩
  · intro vv v2s v6s
    by_cases hv : vv = 0 <;> by_cases h2 : v2s = 0 <;> by_cases h6 : v6s = 0 <;>
      simp [transformRow, videoMetricsRow, dictGetD, List.lookup, detailGet,
        keepIfTruthy, pyTruthy, videoQuartile75, videoQuartile100, pyMulFloat,
        pyToInt, pyCalculateCpr, hv, h2, h6, Except.map]
  · intro vv hvv
    have hq : (0 : ℚ) ≤ (vv : ℚ) * (75/100) := by positivity
    rw [pyTrunc, if_pos hq, ratFloorEqIntFloor]

/-- Witness for C4's amended theorem: the `video_views ≥ 0` clause at
`video_views = 1000`, where truncation agrees with the floor. -/
theorem quartileDerivationTruncationWitness :
    pyTrunc ((1000 : ℚ) * (75/100)) = ⌊((1000 : ℚ) * (75/100))⌋ :=
  quartileDerivationTruncation.2.1 1000 (by decide)

/-- Predicate: the detail map holds no entry for this key (a non-string key never
has one, the map being keyed by strings). -/
def noDetailEntry (details : List (String × AdInfo)) : PyVal → Bool
  | .vStr s => (details.lookup s).isNone
  | _ => true

/-- When the detail map has no entry for the key, the `.get(ad_id, {})`
access yields the empty dict. -/
theorem detailGet_of_noEntry (details : List (String × AdInfo)) (k : PyVal)
    (h : noDetailEntry details k = true) : detailGet details k = [] := by
  cases k with
  | vStr s =>
    simp only [noDetailEntry, Option.isNone_iff_eq_none] at h
    simp [detailGet, h]
  | vNone => rfl
  | vInt n => rfl
  | vFloat q => rfl

/-- Claim C5, counterexample: a metric row whose `ad_id` has no entry in
the detail map is mapped with `FORMAT = ""` — the `.get` default — not
`FORMAT = "VIDEO"`. -/
theorem missingDetailFormatIsEmpty :
    (transformRow [] (videoMetricsRow 0 0 0)).map (fun r => r.FORMAT)
      = .ok (.vStr "")
    ∧ PyVal.vStr "" ≠ PyVal.vStr "VIDEO" := by
  exact ⟨rfl, by decide⟩

/-- Claim C5, amended: for every metric row with integer metric values
whose `ad_id` has no entry in the detail map, the mapper raises no error
and produces `FORMAT = ""` (not `"VIDEO"`), `TEXT = ""`,
`CALL_TO_ACTION = ""`, `AD_NAME = ""`, `AD_GROUP_NAME = ""` and
`CAMPAIGN_NAME = ""`.  (The integer-metrics guard is needed because the
mapper performs no coercion: a non-numeric metric value can make it raise
for reasons unrelated to the detail lookup.) -/
theorem missingDetailDefaults (dims metrics : List (String × PyVal))
    (details : List (String × AdInfo))
    (hm : metrics.all (fun p => p.2.isInt) = true)
    (hd : noDetailEntry details (dictGetD dims "ad_id" .vNone) = true) :
    (transformRow details ⟨dims, metrics⟩).map
      (fun r => (r.FORMAT, r.TEXT, r.CALL_TO_ACTION, r.AD_NAME,
        r.AD_GROUP_NAME, r.CAMPAIGN_NAME)) =
      .ok (.vStr "", .vStr "", .vStr "", .vStr "", .vStr "", .vStr "") := by
  obtain ⟨nv, hnv⟩ := dictGetD_int metrics "video_play_actions" hm
  obtain ⟨na, hna⟩ := dictGetD_int metrics "spend" hm
  obtain ⟨nb, hnb⟩ := dictGetD_int metrics "reach" hm
  obtain ⟨cpr, hcpr⟩ := pyCalculateCpr_int na nb
  have hdg := detailGet_of_noEntry details (dictGetD dims "ad_id" .vNone) hd
  simp only [transformRow, hnv, hna, hnb, videoQuartile75_int nv,
    videoQuartile100_int nv, hcpr, hdg]
  simp [adInfoGetD, Except.map]

/-- Witness for C5's amended theorem at a concrete row with an unknown
`ad_id` and no metrics dict entries. -/
theorem missingDetailDefaultsWitness :
    (transformRow [] ⟨[("ad_id", .vStr "X")], []⟩).map
      (fun r => (r.FORMAT, r.TEXT, r.CALL_TO_ACTION, r.AD_NAME,
        r.AD_GROUP_NAME, r.CAMPAIGN_NAME)) =
      .ok (.vStr "", .vStr "", .vStr "", .vStr "", .vStr "", .vStr "") :=
  missingDetailDefaults [("ad_id", .vStr "X")] [] [] (by decide) (by decide)

/-- Claim C6: `_calculate_cpr` returns `round(spend / reach, 6)` exactly
when `reach > 0` and `None` otherwise; `spend=100, reach=0` gives `None`,
`spend=100, reach=50` gives `2.0`; and a `some` result can only arise with
a strictly positive divisor, so the division is never performed with a
zero divisor. -/
theorem calculateCprSpec :
    (∀ spend reach : ℚ,
      calculate_cpr spend reach =
        if 0 < reach then some (pyRound6 (spend / reach)) else none)
    ∧ calculate_cpr 100 0 = none
    ∧ calculate_cpr 100 50 = some 2
    ∧ (∀ spend reach q : ℚ, calculate_cpr spend reach = some q → 0 < reach)
    := by
  refine ⟨?_, ?_, ?_, ?_⟩
  · intro spend reach
    by_cases h : 0 < reach
    · simp [calculate_cpr, h, ne_of_gt h]
    · simp [calculate_cpr, h]
  · simp [calculate_cpr]
  · with_unfolding_all rfl
  · intro spend reach q h
    by_cases hc : reach ≠ 0 ∧ 0 < reach
    · exact hc.2
    · simp [calculate_cpr, hc] at h

/-- Witness for C6: its never-divide-by-zero clause applied at
`spend = 100`, `reach = 50`, discharged by the concrete evaluation
`calculate_cpr 100 50 = some 2`. -/
theorem calculateCprSpecWitness : (0 : ℚ) < 50 :=
  calculateCprSpec.2.2.2 100 50 2 (by with_unfolding_all rfl)

/-- Claim C7, counterexample: the non-numeric payload value
`video_play_actions = "abc"` makes the mapper raise a `TypeError` (from
`video_views * 0.75`) instead of coercing the field to 0. -/
theorem nonNumericVideoPlayActionsRaises :
    transformRow [] (stringVideoRow "abc") = .error "TypeError" := rfl

/-- Claim C7, amended: the mapper performs no type coercion on the metric
fields.  A non-empty non-numeric string in `video_play_actions` makes the
mapper raise a `TypeError` (the field is never replaced by a zero-value),
while metric fields that are merely passed through — such as
`impressions` — emit the non-numeric payload value unchanged rather than
coerced to the column's declared type. -/
theorem noCoercionBehavior :
    (∀ s : String, s ≠ "" →
      transformRow [] (stringVideoRow s) = .error "TypeError")
    ∧ (transformRow [] stringImpressionsRow).map (fun r => r.IMPRESSIONS)
        = .ok (.vStr "xyz") := by
  constructor
  · intro s hs
    simp [transformRow, stringVideoRow, dictGetD, List.lookup, detailGet,
      videoQuartile75, pyTruthy, pyMulFloat, hs]
  · rfl

/-- Witness for C7's amended theorem at the concrete payload `"abc"`. -/
theorem noCoercionBehaviorWitness :
    transformRow [] (stringVideoRow "abc") = .error "TypeError" :=
  noCoercionBehavior.1 "abc" (by decide)

/-- Claim C8: the detail lookup partitions the ids into batches of at most
100 whose concatenation is exactly the original id list, and the returned
mapping is the merge of the successful batches alone — failing batches
(raised exception or non-zero code) are skipped without aborting the
lookup. -/
theorem adDetailsBatchingAndPartialMerge
    (api : List String → Except String (ℤ × List (String × AdInfo)))
    (ad_ids : List String) :
    (chunk100 ad_ids).all (fun b => decide (b.length ≤ 100)) = true
    ∧ (chunk100 ad_ids).flatten = ad_ids
    ∧ get_ad_details api ad_ids =
        (successfulBatches api (chunk100 ad_ids)).foldl insertBatch [] :=
  ⟨chunk100_all_le ad_ids, chunk100_flatten ad_ids,
    adDetailsLoop_eq api (chunk100 ad_ids) []⟩

/-- Claim C9: `load_data` on an empty row collection is a no-op: it
returns the warehouse unchanged (and succeeds) and issues neither a
delete nor an append call — whatever the job oracle would have done. -/
theorem loadDataEmptyNoOp {α : Type} (jobOk : Bool) (warehouse : List α) :
    load_data jobOk ([] : List α) warehouse = (.ok warehouse, []) := rfl

/-- Claim C10, counterexample: a fully successful run — one row fetched,
transformed and appended — leaves the persisted watermark at its initial
value `2020-01-01` instead of advancing it to the run's end date
`2025-03-03`. -/
theorem successfulRunLeavesWatermarkUnchanged :
    (main successEnv 5 "2025-02-01" "2025-03-03"
        ⟨[], some "2020-01-01"⟩).2 = .ok ()
    ∧ (main successEnv 5 "2025-02-01" "2025-03-03"
        ⟨[], some "2020-01-01"⟩).1.warehouse.length = 1
    ∧ (main successEnv 5 "2025-02-01" "2025-03-03"
        ⟨[], some "2020-01-01"⟩).1.watermark = some "2020-01-01"
    ∧ some "2020-01-01" ≠ some "2025-03-03" := by
  refine ⟨rfl, rfl, rfl, by decide⟩

/-- Claim C10, amended: the pipeline maintains no watermark at all: `main`
contains no code that reads or writes a persisted watermark (its date
range comes from the wall clock), so every run — successful or failed —
leaves the watermark component of the persistent state exactly as it
was. -/
theorem mainNeverWritesWatermark (env : PipelineEnv) (fuel : ℕ)
    (sd ed : String) (st : RunState) :
    (main env fuel sd ed st).1.watermark = st.watermark := by
  unfold main
  repeat' split
  all_goals rfl

end TikTokPipeline
